import Mathlib

/-!
Shallow embedding of `src/omi_trans.py` (omi-mentor-backend).

External collaborators (Google translation, the VADER sentiment analyzer,
the Groq LLM HTTP call, and the BART summarization model) are modelled as
function parameters gathered in a `Collaborators` bundle; a fallible
collaborator returns `Except String` (an `Except.error` models a raised
Python exception whose message is the carried string).  Every embedded
operation additionally reports how many times it invoked each collaborator
(the `Counts` component), so that short-circuit claims about "zero calls"
can be stated directly.
-/

namespace OmiMentor

/-- One element of the `segments` list of a `/livetranscript` request body:
a JSON object whose `text` field may be absent (`none`). -/
structure Segment where
  text : Option String
deriving DecidableEq

/-- Outcome of the raw HTTPS exchange performed inside `ask_groq`:
a 200 status with the parsed `choices[0].message.content`, a non-200
status with the raw body, or a raised exception with its message. -/
inductive GroqResult where
  | ok (content : String)
  | httpError (status : Nat) (body : String)
  | exn (msg : String)
deriving DecidableEq

/-- The external collaborators the pipeline delegates to.
`sentimentScore` is `sia.polarity_scores(text)["compound"]`, modelled as a
rational; `summarizer` takes (text, max_length, min_length) and models
`summarizer(text, max_length=…, min_length=…, do_sample=False)[0]["summary_text"]`. -/
structure Collaborators where
  translator : String → Except String String
  sentimentScore : String → ℚ
  llm : String → GroqResult
  summarizer : String → Nat → Nat → Except String String

/-- How many times each collaborator was invoked while handling a request. -/
structure Counts where
  translate : Nat
  sentiment : Nat
  llm : Nat
  summarize : Nat
deriving DecidableEq

/-- Zero collaborator invocations. -/
def noCalls : Counts := ⟨0, 0, 0, 0⟩

/-- `summarize_text(text, max_length)` of `src/omi_trans.py` lines 91-96:
if `len(text) <= max_length` return `text`; otherwise return
`summarizer(text, max_length=max_length, min_length=50, do_sample=False)[0]["summary_text"]`
unchanged.  The second component counts summarizer invocations; an
`Except.error` is an exception raised by the summarizer, which the Python
code does not catch here. -/
def summarize_text (f : String → Nat → Nat → Except String String)
    (text : String) (max_length : Nat) : Except String String × Nat :=
  if text.length ≤ max_length then (Except.ok text, 0)
  else (f text max_length 50, 1)

/-- `translate_to_english(text)` of `src/omi_trans.py` lines 98-105:
return `GoogleTranslator(source='auto', target='en').translate(text)`,
and on any exception return the original `text`.  Always exactly one
translator invocation. -/
def translate_to_english (tr : String → Except String String) (text : String) :
    String × Nat :=
  ((match tr text with
    | Except.ok translated_text => translated_text
    | Except.error _ => text), 1)

/-- `analyze_sentiment(score)` of `src/omi_trans.py` lines 155-162. -/
def analyze_sentiment (score : ℚ) : String × String :=
  if score > 2/10 then ("Happy 😊", "Keep up the great energy!")
  else if score < -(2/10) then ("Sad 😞", "Stay positive! You got this!")
  else ("Neutral 😐", "Stay focused and keep moving!")

/-- `ask_groq(question)` of `src/omi_trans.py` lines 61-89.  On a 200
status the parsed content is passed through `summarize_text(_, max_length=200)`;
a non-200 status yields the synthetic error string; any exception raised
inside the `try` block (including one raised by the summarizer) is caught
and converted to the fetch-error string. -/
def ask_groq (C : Collaborators) (question : String) : String × Counts :=
  match C.llm question with
  | GroqResult.ok content =>
      let rs := summarize_text C.summarizer content 200
      ((match rs.1 with
        | Except.ok concise_response => concise_response
        | Except.error e => "❌ Error while fetching from Groq API: " ++ e),
       ⟨0, 0, 1, rs.2⟩)
  | GroqResult.httpError status body =>
      ("❌ Error " ++ toString status ++ ": " ++ body, ⟨0, 0, 1, 0⟩)
  | GroqResult.exn e =>
      ("❌ Error while fetching from Groq API: " ++ e, ⟨0, 0, 1, 0⟩)

/-- Python `str.strip()`: drop leading and trailing whitespace characters. -/
def pyStrip (s : String) : String :=
  ⟨((s.data.dropWhile Char.isWhitespace).reverse.dropWhile Char.isWhitespace).reverse⟩

/-- Python `sep.join(xs)`: concatenate the strings of `xs` separated by `sep`. -/
def pyJoin (sep : String) : List String → String
  | [] => ""
  | [s] => s
  | s :: rest => s ++ sep ++ pyJoin sep rest

/-- The transcript string built by `/livetranscript` (line 116):
`" ".join(segment["text"] for segment in segments if "text" in segment).strip()`. -/
def joinTranscript (segments : List Segment) : String :=
  pyStrip (pyJoin " " (segments.filterMap Segment.text))

/-- The `/livetranscript` handler, `src/omi_trans.py` lines 107-134, for a
request whose JSON body parsed to the given segment list.  The result is the
JSON response object as a key-value list, plus the collaborator call counts.
An exception raised by `summarize_text` at line 125 is caught by the
handler's `except` and converted to the generic internal-error response. -/
def live_transcription (C : Collaborators) (segments : List Segment) :
    List (String × String) × Counts :=
  if segments = [] then ([("message", "No transcription received")], noCalls)
  else
    let transcript := joinTranscript segments
    if transcript = "" then ([("message", "No valid transcription received")], noCalls)
    else
      let tr := translate_to_english C.translator transcript
      let ms := analyze_sentiment (C.sentimentScore tr.1)
      let ag := ask_groq C tr.1
      let ns := summarize_text C.summarizer ag.1 200
      let counts : Counts :=
        ⟨tr.2 + ag.2.translate, 1 + ag.2.sentiment, ag.2.llm, ag.2.summarize + ns.2⟩
      match ns.1 with
      | Except.error _ => ([("message", "Internal Server Error")], counts)
      | Except.ok notification_message =>
          ([("message", notification_message), ("sentiment", ms.1), ("response", ag.1)],
           counts)

/-- The `/webhook` handler, `src/omi_trans.py` lines 136-153, for a request
whose body carried the given optional `transcript` field
(`data.get("transcript", "")`). -/
def receive_transcription (C : Collaborators) (transcriptField : Option String) :
    List (String × String) × Counts :=
  let transcript := pyStrip (transcriptField.getD "")
  if transcript = "" then ([("message", "No transcription received")], noCalls)
  else
    let tr := translate_to_english C.translator transcript
    let ms := analyze_sentiment (C.sentimentScore tr.1)
    let ag := ask_groq C tr.1
    ([("message", "Webhook received"), ("sentiment", ms.1), ("response", ag.1)],
     ⟨tr.2 + ag.2.translate, 1 + ag.2.sentiment, ag.2.llm, ag.2.summarize⟩)

/-- A row of the `tasks` table (`src/database.py` lines 16-19). -/
structure Task where
  id : Nat
  task : String
deriving DecidableEq

/-- `delete_task(task_id, db)` of `src/omi_trans.py` lines 177-184:
`db.query(Task).filter(Task.id == task_id).first()`; if a row is found it
is deleted and committed, otherwise `{"error": "Task not found"}`.
The store is modelled as the list of rows; deleting removes the first row
with the given id. -/
def delete_task (task_id : Nat) (db : List Task) :
    List Task × List (String × String) :=
  match db.find? (fun t => t.id == task_id) with
  | some _ => (db.eraseP (fun t => t.id == task_id),
               [("message", "Task deleted successfully!")])
  | none => (db, [("error", "Task not found")])

/-- The length of a summarization outcome, `0` for a raised exception. -/
def okLen : Except String String → Nat
  | Except.ok s => s.length
  | Except.error _ => 0

/-- A long LLM answer (201 characters), used to exercise the over-length
branch of `summarize_text` at the fixed cap of 200. -/
def longAnswer : String := ⟨List.replicate 201 'a'⟩

/-- Evaluation of the sentiment classifier at the neutral score `0`,
used to evaluate concrete pipeline runs. -/
lemma analyze_sentiment_zero :
    analyze_sentiment 0 = ("Neutral 😐", "Stay focused and keep moving!") := by
  unfold analyze_sentiment; norm_num

/-- Claim C7: for every string `s` and every target length `N ≥ 0` such that
`len(s) ≤ N`, the shortening policy returns `s` unchanged (and makes no
summarizer call). -/
theorem C7_shorten_idempotent (f : String → Nat → Nat → Except String String)
    (s : String) (N : Nat) (h : s.length ≤ N) :
    summarize_text f s N = (Except.ok s, 0) := by
  simp [summarize_text, h]

/-- Witness for C7 at `s = "hi"`, `N = 10`, with an always-failing summarizer. -/
theorem C7_shorten_idempotent_witness :
    summarize_text (fun _ _ _ => Except.error "unavailable") "hi" 10
      = (Except.ok "hi", 0) :=
  C7_shorten_idempotent (fun _ _ _ => Except.error "unavailable") "hi" 10 (by decide)

/-- Counterexample to claim C1 as stated: with `N = 4 ≥ 4` and an input longer
than `N`, the model-summarization path returns the summarizer output verbatim,
here a 10-character string, so the output length exceeds `N`; the code enforces
no bound on that path and has no fallback path. -/
theorem C1_counterexample :
    4 ≤ 4 ∧
    (summarize_text (fun _ _ _ => Except.ok "0123456789") "hello world" 4).1
      = Except.ok "0123456789" ∧
    ¬ ("0123456789".length ≤ 4) :=
  ⟨by decide, rfl, by decide⟩

/-- Claim C1 amended: the output of the shortening policy has length at most
`N` only under the extra assumption that the external summarizer itself
respects its `max_length` budget; the code performs no enforcement of its own
(`okLen` is the length of a non-exceptional result, `0` for an exception). -/
theorem C1_length_bound_amended (f : String → Nat → Nat → Except String String)
    (s : String) (N : Nat) (hf : ∀ t m n, okLen (f t m n) ≤ m) :
    okLen (summarize_text f s N).1 ≤ N := by
  unfold summarize_text
  split
  · next h => simpa [okLen] using h
  · exact hf s N 50

/-- Witness for the amended C1 at a summarizer that always returns `""`. -/
theorem C1_length_bound_amended_witness :
    okLen (summarize_text (fun _ _ _ => Except.ok "") "hello world" 4).1 ≤ 4 :=
  C1_length_bound_amended (fun _ _ _ => Except.ok "") "hello world" 4
    (fun _ m _ => Nat.zero_le m)

/-- Counterexample to claim C2 as stated: no deterministic truncation fallback
exists.  When the summarizer raises, `summarize_text` propagates the exception
to its caller instead of truncating; when the summarizer returns text longer
than `N = 4`, that text is returned as-is, with no cut at a whitespace boundary
and no ellipsis marker, and its length exceeds `N`. -/
theorem C2_counterexample :
    (summarize_text (fun _ _ _ => Except.error "summarizer unavailable")
        "hello world" 4).1 = Except.error "summarizer unavailable" ∧
    (summarize_text (fun _ _ _ => Except.ok "0123456789 no ellipsis")
        "hello world" 4).1 = Except.ok "0123456789 no ellipsis" ∧
    ¬ ("0123456789 no ellipsis".length ≤ 4) :=
  ⟨rfl, rfl, by decide⟩

/-- Claim C2 amended: when the summarizer fails on an over-length input,
`summarize_text` propagates the exception to its caller; inside `ask_groq` the
surrounding `try` block catches it and converts it into the fetch-error string
(no truncation, no ellipsis, no length guarantee). -/
theorem C2_no_fallback_amended (C : Collaborators) (q content e : String)
    (hl : C.llm q = GroqResult.ok content) (hlen : 200 < content.length)
    (hs : C.summarizer content 200 50 = Except.error e) :
    (summarize_text C.summarizer content 200).1 = Except.error e ∧
    (ask_groq C q).1 = "❌ Error while fetching from Groq API: " ++ e := by
  have h1 : (summarize_text C.summarizer content 200).1 = Except.error e := by
    simp [summarize_text, Nat.not_le.mpr hlen, hs]
  exact ⟨h1, by simp [ask_groq, hl, h1]⟩

/-- Witness for the amended C2 at a 201-character LLM answer and an
always-raising summarizer. -/
theorem C2_no_fallback_amended_witness :
    (summarize_text (fun _ _ _ => Except.error "boom") longAnswer 200).1
      = Except.error "boom" ∧
    (ask_groq (Collaborators.mk (fun t => Except.ok t) (fun _ => 0)
        (fun _ => GroqResult.ok longAnswer) (fun _ _ _ => Except.error "boom")) "q").1
      = "❌ Error while fetching from Groq API: " ++ "boom" :=
  C2_no_fallback_amended
    (Collaborators.mk (fun t => Except.ok t) (fun _ => 0)
      (fun _ => GroqResult.ok longAnswer) (fun _ _ _ => Except.error "boom"))
    "q" longAnswer "boom" rfl (by norm_num [longAnswer, String.length]) rfl

/-- Claim C8: `analyze_sentiment` is a pure total function of the compound
polarity score: a score above `0.2` yields the Happy bucket, below `-0.2` the
Sad bucket, and every other score (boundaries included) the Neutral bucket,
each paired with its fixed companion suggestion. -/
theorem C8_sentiment_buckets (score : ℚ) :
    (2/10 < score → analyze_sentiment score = ("Happy 😊", "Keep up the great energy!")) ∧
    (score < -(2/10) → analyze_sentiment score = ("Sad 😞", "Stay positive! You got this!")) ∧
    (-(2/10) ≤ score → score ≤ 2/10 →
      analyze_sentiment score = ("Neutral 😐", "Stay focused and keep moving!")) := by
  unfold analyze_sentiment
  refine ⟨fun h => ?_, fun h => ?_, fun h1 h2 => ?_⟩
  · rw [if_pos h]
  · rw [if_neg (by push_neg; linarith), if_pos h]
  · rw [if_neg (not_lt.mpr h2), if_neg (not_lt.mpr h1)]

/-- Witness for C8 at scores `0.5`, `-0.5`, `0`, and the boundaries `0.2`
and `-0.2`. -/
theorem C8_sentiment_buckets_witness :
    analyze_sentiment (5/10) = ("Happy 😊", "Keep up the great energy!") ∧
    analyze_sentiment (-(5/10)) = ("Sad 😞", "Stay positive! You got this!") ∧
    analyze_sentiment 0 = ("Neutral 😐", "Stay focused and keep moving!") ∧
    analyze_sentiment (2/10) = ("Neutral 😐", "Stay focused and keep moving!") ∧
    analyze_sentiment (-(2/10)) = ("Neutral 😐", "Stay focused and keep moving!") :=
  ⟨(C8_sentiment_buckets (5/10)).1 (by norm_num),
   (C8_sentiment_buckets (-(5/10))).2.1 (by norm_num),
   (C8_sentiment_buckets 0).2.2 (by norm_num) (by norm_num),
   (C8_sentiment_buckets (2/10)).2.2 (by norm_num) le_rfl,
   (C8_sentiment_buckets (-(2/10))).2.2 le_rfl (by norm_num)⟩

/-- Counterexample to claim C3 as stated: the code performs no delimiter
parsing.  With an LLM response body containing `||`, `ask_groq` returns the
whole body (no split at the first occurrence, so the answer is not the part
before the delimiter), and with a delimiter-free body the webhook response
contains no `("suggestion", "Reflect")` entry. -/
theorem C3_counterexample :
    (ask_groq (Collaborators.mk (fun t => Except.ok t) (fun _ => 0)
        (fun _ => GroqResult.ok "Answer part||Suggestion part")
        (fun _ _ _ => Except.ok "")) "q").1 = "Answer part||Suggestion part" ∧
    "Answer part||Suggestion part" ≠ "Answer part" ∧
    ("suggestion", "Reflect") ∉
      (receive_transcription (Collaborators.mk (fun t => Except.ok t) (fun _ => 0)
        (fun _ => GroqResult.ok "No delimiter here")
        (fun _ _ _ => Except.ok "")) (some "hi")).1 := by
  refine ⟨rfl, by decide, ?_⟩
  have h : (receive_transcription (Collaborators.mk (fun t => Except.ok t) (fun _ => 0)
        (fun _ => GroqResult.ok "No delimiter here")
        (fun _ _ _ => Except.ok "")) (some "hi")).1
      = [("message", "Webhook received"), ("sentiment", (analyze_sentiment 0).1),
         ("response", "No delimiter here")] := rfl
  rw [h, analyze_sentiment_zero]
  decide

/-- Claim C3 amended: the pipeline performs no delimiter parsing at all.  On
a 200 status whose parsed content fits the 200-character cap, `ask_groq`
returns the whole response body, whether or not it contains `||`; no
suggestion is ever derived from the body and no `"Reflect"` default exists
(the suggestion in the result comes only from `analyze_sentiment` and is
discarded by the handlers). -/
theorem C3_whole_body_is_answer_amended (C : Collaborators) (q content : String)
    (hl : C.llm q = GroqResult.ok content) (hlen : content.length ≤ 200) :
    (ask_groq C q).1 = content := by
  simp [ask_groq, hl, summarize_text, hlen]

/-- Witness for the amended C3 at a delimiter-carrying response body. -/
theorem C3_whole_body_is_answer_amended_witness :
    (ask_groq (Collaborators.mk (fun t => Except.ok t) (fun _ => 0)
        (fun _ => GroqResult.ok "Answer part||Suggestion part")
        (fun _ _ _ => Except.ok "error path")) "q").1
      = "Answer part||Suggestion part" :=
  C3_whole_body_is_answer_amended
    (Collaborators.mk (fun t => Except.ok t) (fun _ => 0)
      (fun _ => GroqResult.ok "Answer part||Suggestion part")
      (fun _ _ _ => Except.ok "error path"))
    "q" "Answer part||Suggestion part" rfl (by decide)

set_option maxRecDepth 8000 in
/-- Counterexample to claim C4 as stated: on a successful run whose LLM
answer is 201 characters long and whose summarizer condenses it to
`"short"`, the `response` field of the `/livetranscript` result equals the
shortened copy `"short"`, not the complete answer text returned by the LLM
collaborator. -/
theorem C4_counterexample :
    ((live_transcription (Collaborators.mk (fun t => Except.ok t) (fun _ => 0)
        (fun _ => GroqResult.ok longAnswer) (fun _ _ _ => Except.ok "short"))
        [Segment.mk (some "hi")]).1
      = [("message", "short"), ("sentiment", "Neutral 😐"), ("response", "short")]) ∧
    "short" ≠ longAnswer := by
  refine ⟨?_, by decide⟩
  have h : ((live_transcription (Collaborators.mk (fun t => Except.ok t) (fun _ => 0)
        (fun _ => GroqResult.ok longAnswer) (fun _ _ _ => Except.ok "short"))
        [Segment.mk (some "hi")]).1
      = [("message", "short"), ("sentiment", (analyze_sentiment 0).1),
         ("response", "short")]) := rfl
  rw [h, analyze_sentiment_zero]

/-- Claim C4 amended: the `response` field equals the output of `ask_groq`,
which is the LLM answer already passed through the shortening policy at the
fixed cap `200`; it equals the complete LLM answer exactly when that answer
is at most 200 characters, in which case the notification `message` equals
it as well. -/
theorem C4_response_field_amended (C : Collaborators) (segments : List Segment)
    (content : String) (hne : ¬ segments = [])
    (ht : ¬ joinTranscript segments = "")
    (hllm : C.llm (translate_to_english C.translator (joinTranscript segments)).1
              = GroqResult.ok content)
    (hlen : content.length ≤ 200) :
    (live_transcription C segments).1 =
      [("message", content),
       ("sentiment", (analyze_sentiment (C.sentimentScore
          (translate_to_english C.translator (joinTranscript segments)).1)).1),
       ("response", content)] := by
  have hag : (ask_groq C (translate_to_english C.translator (joinTranscript segments)).1).1
      = content := by simp [ask_groq, hllm, summarize_text, hlen]
  simp only [live_transcription]
  rw [if_neg hne, if_neg ht, hag]
  simp [summarize_text, hlen]

/-- Witness for the amended C4 at an 11-character LLM answer. -/
theorem C4_response_field_amended_witness :
    (live_transcription (Collaborators.mk (fun t => Except.ok t) (fun _ => 0)
        (fun _ => GroqResult.ok "fine answer") (fun _ _ _ => Except.error "down"))
        [Segment.mk (some "hi")]).1
      = [("message", "fine answer"), ("sentiment", "Neutral 😐"),
         ("response", "fine answer")] := by
  rw [C4_response_field_amended
      (Collaborators.mk (fun t => Except.ok t) (fun _ => 0)
        (fun _ => GroqResult.ok "fine answer") (fun _ _ _ => Except.error "down"))
      [Segment.mk (some "hi")] "fine answer" (by decide) (by decide) rfl (by decide)]
  show [("message", "fine answer"), ("sentiment", (analyze_sentiment 0).1),
        ("response", "fine answer")]
     = [("message", "fine answer"), ("sentiment", "Neutral 😐"),
        ("response", "fine answer")]
  rw [analyze_sentiment_zero]

/-- Claim C5: a `/livetranscript` request with an empty segment list or a
blank joined transcript, and a `/webhook` request with a blank (or missing)
transcript field, return immediately with an informational message and make
zero calls to the translation, sentiment, LLM and summarization
collaborators. -/
theorem C5_empty_input_short_circuit (C : Collaborators) (segments : List Segment)
    (transcriptField : Option String) :
    (segments = [] →
      live_transcription C segments
        = ([("message", "No transcription received")], noCalls)) ∧
    (joinTranscript segments = "" →
      (live_transcription C segments).2 = noCalls ∧
      ((live_transcription C segments).1 = [("message", "No transcription received")] ∨
       (live_transcription C segments).1
         = [("message", "No valid transcription received")])) ∧
    (pyStrip (transcriptField.getD "") = "" →
      receive_transcription C transcriptField
        = ([("message", "No transcription received")], noCalls)) := by
  refine ⟨fun h => ?_, fun h => ?_, fun h => ?_⟩
  · simp [live_transcription, h]
  · by_cases hseg : segments = []
    · exact ⟨by simp [live_transcription, hseg], Or.inl (by simp [live_transcription, hseg])⟩
    · exact ⟨by simp [live_transcription, hseg, h], Or.inr (by simp [live_transcription, hseg, h])⟩
  · simp [receive_transcription, h]

/-- Witness for C5 at an empty segment list, a single blank segment, and a
whitespace-only webhook transcript. -/
theorem C5_empty_input_short_circuit_witness :
    live_transcription (Collaborators.mk (fun t => Except.ok t) (fun _ => 0)
        (fun _ => GroqResult.ok "x") (fun _ _ _ => Except.ok "")) []
      = ([("message", "No transcription received")], noCalls) ∧
    (live_transcription (Collaborators.mk (fun t => Except.ok t) (fun _ => 0)
        (fun _ => GroqResult.ok "x") (fun _ _ _ => Except.ok ""))
        [Segment.mk (some "")]).2 = noCalls ∧
    receive_transcription (Collaborators.mk (fun t => Except.ok t) (fun _ => 0)
        (fun _ => GroqResult.ok "x") (fun _ _ _ => Except.ok "")) (some " ")
      = ([("message", "No transcription received")], noCalls) :=
  ⟨(C5_empty_input_short_circuit
      (Collaborators.mk (fun t => Except.ok t) (fun _ => 0)
        (fun _ => GroqResult.ok "x") (fun _ _ _ => Except.ok "")) [] (some " ")).1 rfl,
   ((C5_empty_input_short_circuit
      (Collaborators.mk (fun t => Except.ok t) (fun _ => 0)
        (fun _ => GroqResult.ok "x") (fun _ _ _ => Except.ok ""))
      [Segment.mk (some "")] (some " ")).2.1 (by decide)).1,
   (C5_empty_input_short_circuit
      (Collaborators.mk (fun t => Except.ok t) (fun _ => 0)
        (fun _ => GroqResult.ok "x") (fun _ _ _ => Except.ok "")) [] (some " ")).2.2
      (by decide)⟩

/-- `ask_groq` reads only the `llm` and `summarizer` collaborators, so the
translator component is irrelevant to it. -/
lemma ask_groq_mk_translator (tr tr' : String → Except String String)
    (sc : String → ℚ) (llmF : String → GroqResult)
    (su : String → Nat → Nat → Except String String) (q : String) :
    ask_groq ⟨tr, sc, llmF, su⟩ q = ask_groq ⟨tr', sc, llmF, su⟩ q := rfl

/-- Claim C6: if the translation collaborator raises, `translate_to_english`
returns the original text unchanged, and the output of either handler with an
always-failing translator equals its output with translation disabled (an
identity translator). -/
theorem C6_translation_fail_open (C : Collaborators) (segments : List Segment)
    (transcriptField : Option String)
    (hfail : ∀ t, ∃ e, C.translator t = Except.error e) :
    (∀ text, (translate_to_english C.translator text).1 = text) ∧
    (live_transcription C segments).1 =
      (live_transcription (Collaborators.mk (fun t => Except.ok t)
        C.sentimentScore C.llm C.summarizer) segments).1 ∧
    (receive_transcription C transcriptField).1 =
      (receive_transcription (Collaborators.mk (fun t => Except.ok t)
        C.sentimentScore C.llm C.summarizer) transcriptField).1 := by
  obtain ⟨tr0, sc, llmF, su⟩ := C
  have hid : ∀ text, (translate_to_english tr0 text).1 = text := by
    intro text
    obtain ⟨e, he⟩ := hfail text
    have he' : tr0 text = Except.error e := he
    simp [translate_to_english, he']
  refine ⟨hid, ?_, ?_⟩
  · by_cases hseg : segments = []
    · simp [live_transcription, hseg]
    · by_cases htr : joinTranscript segments = ""
      · simp [live_transcription, hseg, htr]
      · simp only [live_transcription]
        rw [if_neg hseg, if_neg htr, if_neg hseg, if_neg htr,
            ask_groq_mk_translator tr0 (fun t => Except.ok t) sc llmF su,
            hid (joinTranscript segments)]
        rfl
  · by_cases htr : pyStrip (transcriptField.getD "") = ""
    · simp [receive_transcription, htr]
    · simp only [receive_transcription]
      rw [if_neg htr, if_neg htr,
          ask_groq_mk_translator tr0 (fun t => Except.ok t) sc llmF su,
          hid (pyStrip (transcriptField.getD ""))]
      rfl

/-- Witness for C6 at a translator that always raises `"down"`. -/
theorem C6_translation_fail_open_witness :
    (translate_to_english (fun _ => Except.error "down") "hola").1 = "hola" ∧
    (receive_transcription (Collaborators.mk (fun _ => Except.error "down")
        (fun _ => 0) (fun _ => GroqResult.ok "ans") (fun _ _ _ => Except.ok ""))
        (some "hola")).1 =
      (receive_transcription (Collaborators.mk (fun t => Except.ok t)
        (fun _ => 0) (fun _ => GroqResult.ok "ans") (fun _ _ _ => Except.ok ""))
        (some "hola")).1 :=
  ⟨(C6_translation_fail_open
      (Collaborators.mk (fun _ => Except.error "down") (fun _ => 0)
        (fun _ => GroqResult.ok "ans") (fun _ _ _ => Except.ok ""))
      [] (some "hola") (fun _ => ⟨"down", rfl⟩)).1 "hola",
   (C6_translation_fail_open
      (Collaborators.mk (fun _ => Except.error "down") (fun _ => 0)
        (fun _ => GroqResult.ok "ans") (fun _ _ _ => Except.ok ""))
      [] (some "hola") (fun _ => ⟨"down", rfl⟩)).2.2⟩

/-- Claim C10: neither handler ever emits a `suggestion` field (the
suggestion computed by `analyze_sentiment` is discarded), and on the success
path the response object has exactly the keys `message`, `sentiment`,
`response`, in that order. -/
theorem C10_no_suggestion_key (C : Collaborators) (segments : List Segment)
    (transcriptField : Option String) :
    "suggestion" ∉ (live_transcription C segments).1.map Prod.fst ∧
    "suggestion" ∉ (receive_transcription C transcriptField).1.map Prod.fst ∧
    (¬ segments = [] → ¬ joinTranscript segments = "" →
      (∀ e, (summarize_text C.summarizer
          (ask_groq C (translate_to_english C.translator (joinTranscript segments)).1).1
          200).1 ≠ Except.error e) →
      (live_transcription C segments).1.map Prod.fst
        = ["message", "sentiment", "response"]) ∧
    (¬ pyStrip (transcriptField.getD "") = "" →
      (receive_transcription C transcriptField).1.map Prod.fst
        = ["message", "sentiment", "response"]) := by
  refine ⟨?_, ?_, ?_, ?_⟩
  · by_cases hseg : segments = []
    · simp [live_transcription, hseg]
    · by_cases htr : joinTranscript segments = ""
      · simp [live_transcription, hseg, htr]
      · simp only [live_transcription]
        rw [if_neg hseg, if_neg htr]
        cases hns : (summarize_text C.summarizer
            (ask_groq C (translate_to_english C.translator (joinTranscript segments)).1).1
            200).1 with
        | error e => simp
        | ok nm => simp
  · by_cases htr : pyStrip (transcriptField.getD "") = ""
    · simp [receive_transcription, htr]
    · simp only [receive_transcription]
      rw [if_neg htr]
      simp
  · intro hseg htr hok
    simp only [live_transcription]
    rw [if_neg hseg, if_neg htr]
    cases hns : (summarize_text C.summarizer
        (ask_groq C (translate_to_english C.translator (joinTranscript segments)).1).1
        200).1 with
    | error e => exact absurd hns (hok e)
    | ok nm => simp
  · intro htr
    simp only [receive_transcription]
    rw [if_neg htr]
    simp

/-- Witness for C10: the suggestion key is absent from a concrete
`/livetranscript` run, and a concrete `/webhook` success run has exactly the
three keys. -/
theorem C10_no_suggestion_key_witness :
    "suggestion" ∉ (live_transcription (Collaborators.mk (fun t => Except.ok t)
        (fun _ => 0) (fun _ => GroqResult.ok "answer") (fun _ _ _ => Except.ok ""))
        [Segment.mk (some "hi")]).1.map Prod.fst ∧
    (receive_transcription (Collaborators.mk (fun t => Except.ok t)
        (fun _ => 0) (fun _ => GroqResult.ok "answer") (fun _ _ _ => Except.ok ""))
        (some "hi")).1.map Prod.fst = ["message", "sentiment", "response"] :=
  ⟨(C10_no_suggestion_key (Collaborators.mk (fun t => Except.ok t)
      (fun _ => 0) (fun _ => GroqResult.ok "answer") (fun _ _ _ => Except.ok ""))
      [Segment.mk (some "hi")] (some "hi")).1,
   (C10_no_suggestion_key (Collaborators.mk (fun t => Except.ok t)
      (fun _ => 0) (fun _ => GroqResult.ok "answer") (fun _ _ _ => Except.ok ""))
      [Segment.mk (some "hi")] (some "hi")).2.2.2 (by decide)⟩

/-- Helper for C9: under pairwise-distinct ids, erasing the first task whose
id matches leaves exactly the tasks whose id differs. -/
lemma mem_eraseP_id (task_id : Nat) (db : List Task)
    (huniq : db.Pairwise fun a b => a.id ≠ b.id) (t : Task) :
    t ∈ db.eraseP (fun x => x.id == task_id) ↔ t ∈ db ∧ t.id ≠ task_id := by
  induction db with
  | nil => simp
  | cons a rest ih =>
    rcases List.pairwise_cons.mp huniq with ⟨ha, hrest⟩
    by_cases hc : a.id = task_id
    · rw [List.eraseP_cons_of_pos (by simpa using hc)]
      constructor
      · intro hmem
        refine ⟨List.mem_cons_of_mem a hmem, fun he => ?_⟩
        exact (ha t hmem) (by rw [hc, he])
      · rintro ⟨hmem, hne⟩
        rcases List.mem_cons.mp hmem with rfl | hmem'
        · exact absurd hc hne
        · exact hmem'
    · rw [List.eraseP_cons_of_neg (by simpa using hc)]
      constructor
      · intro hmem
        rcases List.mem_cons.mp hmem with rfl | hmem'
        · exact ⟨List.mem_cons_self t rest, hc⟩
        · rcases (ih hrest).mp hmem' with ⟨h1, h2⟩
          exact ⟨List.mem_cons_of_mem a h1, h2⟩
      · rintro ⟨hmem, hne⟩
        rcases List.mem_cons.mp hmem with rfl | hmem'
        · exact List.mem_cons_self t _
        · exact List.mem_cons_of_mem a ((ih hrest).mpr ⟨hmem', hne⟩)

/-- Claim C9: under the unique-id store invariant, `delete_task` removes the
record with the given id and acknowledges success when such a record exists;
otherwise it returns the not-found error and leaves the store completely
unchanged. -/
theorem C9_delete_task (task_id : Nat) (db : List Task)
    (huniq : db.Pairwise fun a b => a.id ≠ b.id) :
    ((∃ t ∈ db, t.id = task_id) →
      (delete_task task_id db).2 = [("message", "Task deleted successfully!")] ∧
      ∀ t, t ∈ (delete_task task_id db).1 ↔ t ∈ db ∧ t.id ≠ task_id) ∧
    ((∀ t ∈ db, t.id ≠ task_id) →
      delete_task task_id db = (db, [("error", "Task not found")])) := by
  constructor
  · rintro ⟨t0, ht0, hid⟩
    have hfind : (db.find? (fun t => t.id == task_id)).isSome := by
      rw [List.find?_isSome]
      exact ⟨t0, ht0, by simpa using hid⟩
    obtain ⟨t1, hfind1⟩ := Option.isSome_iff_exists.mp hfind
    refine ⟨by simp [delete_task, hfind1], fun t => ?_⟩
    rw [show (delete_task task_id db).1 = db.eraseP (fun t => t.id == task_id) by
          simp [delete_task, hfind1]]
    exact mem_eraseP_id task_id db huniq t
  · intro hall
    have hfind : db.find? (fun t => t.id == task_id) = none := by
      rw [List.find?_eq_none]
      intro x hx
      simpa using hall x hx
    simp [delete_task, hfind]

/-- Witness for C9 on a two-row store: deleting id 2 succeeds and removes the
row; deleting the absent id 5 reports not-found and leaves the store as it
was. -/
theorem C9_delete_task_witness :
    (delete_task 2 [Task.mk 1 "buy milk", Task.mk 2 "call mom"]).2
      = [("message", "Task deleted successfully!")] ∧
    Task.mk 2 "call mom" ∉ (delete_task 2 [Task.mk 1 "buy milk", Task.mk 2 "call mom"]).1 ∧
    delete_task 5 [Task.mk 1 "buy milk", Task.mk 2 "call mom"]
      = ([Task.mk 1 "buy milk", Task.mk 2 "call mom"], [("error", "Task not found")]) := by
  have huniq : ([Task.mk 1 "buy milk", Task.mk 2 "call mom"] : List Task).Pairwise
      (fun a b => a.id ≠ b.id) := by
    simp [List.pairwise_cons]
  refine ⟨((C9_delete_task 2 [Task.mk 1 "buy milk", Task.mk 2 "call mom"] huniq).1
            ⟨Task.mk 2 "call mom", by decide, rfl⟩).1,
          fun hmem => ?_,
          (C9_delete_task 5 [Task.mk 1 "buy milk", Task.mk 2 "call mom"] huniq).2
            (by decide)⟩
  exact ((((C9_delete_task 2 [Task.mk 1 "buy milk", Task.mk 2 "call mom"] huniq).1
      ⟨Task.mk 2 "call mom", by decide, rfl⟩).2 (Task.mk 2 "call mom")).mp hmem).2 rfl

end OmiMentor
